import Mathlib

/-!
Verification of the hubs HTTP API (src/index.js): a shallow embedding of
the five hub route handlers, the two auxiliary routes, and the express
router dispatch, with theorems settling the specification claims.
-/

namespace WebApi

/-- JSON-like values as produced and consumed by the handlers.  `undef`
models JavaScript `undefined` (a possible resolution of `findById` and
`update`); `null` models JSON `null`. -/
inductive Json where
  | null : Json
  | undef : Json
  | bool : Bool → Json
  | num : Int → Json
  | str : String → Json
  | arr : List Json → Json
  | obj : List (String × Json) → Json
deriving Repr

/-- JavaScript truthiness of a value, as tested by `if (hub)`,
`if (updated)`, `if (deleted)` in src/index.js.  Objects and arrays are
always truthy; zero, the empty string, `false`, `null` and `undefined`
are falsy. -/
def Json.truthy : Json → Bool
  | .null => false
  | .undef => false
  | .bool b => b
  | .num n => n != 0
  | .str s => s != ""
  | .arr _ => true
  | .obj _ => true

/-- The body of an HTTP response: `res.status(204).end()` sends an empty
body, `res.send(s)` sends text, `res.json(j)` sends a JSON document. -/
inductive Body where
  | empty : Body
  | text : String → Body
  | json : Json → Body
deriving Repr

/-- An HTTP response: a status code and a body. -/
structure Response where
  status : Nat
  body : Body
deriving Repr

/-- The outcome of a settled collaborator promise: it either resolved
with a value or rejected with an error value. -/
inductive Settled where
  | resolved : Json → Settled
  | rejected : Json → Settled
deriving Repr

/-- Handler of `GET /hubs` (src/index.js lines 34-42): the list of
responses sent for a settled `db.find()` promise.  Note the misspelled
`sucess` key in the catch branch (line 40). -/
def getHubs : Settled → List Response
  | .resolved hubs => [⟨200, .json hubs⟩]
  | .rejected err =>
      [⟨500, .json (.obj [("sucess", .bool false), ("err", err)])⟩]

/-- Handler of `GET /hubs/:id` (src/index.js lines 57-74): the list of
responses sent for a settled `db.findById(id)` promise. -/
def getHubById : Settled → List Response
  | .resolved hub =>
      if hub.truthy then
        [⟨200, .json hub⟩]
      else
        [⟨404, .json (.obj [("success", .bool false),
          ("message", .str "I cannot find the hub you are looking for.")])⟩]
  | .rejected err =>
      [⟨500, .json (.obj [("success", .bool false), ("err", err)])⟩]

/-- Handler of `POST /hubs` (src/index.js lines 97-107): the list of
responses sent for a settled `db.add(hubInfo)` promise.  Both branches
spell the flag key `sucess` (lines 102 and 105). -/
def postHubs : Settled → List Response
  | .resolved hub =>
      [⟨201, .json (.obj [("sucess", .bool true), ("hub", hub)])⟩]
  | .rejected err =>
      [⟨500, .json (.obj [("sucess", .bool false), ("err", err)])⟩]

/-- Handler of `PUT /hubs/:id` (src/index.js lines 123-138): the list of
responses sent for a settled `db.update(id, hubInfo)` promise. -/
def putHub : Settled → List Response
  | .resolved updated =>
      if updated.truthy then
        [⟨200, .json (.obj [("success", .bool true), ("updated", updated)])⟩]
      else
        [⟨404, .json (.obj [("success", .bool false),
          ("message", .str "I cannot find the hub you are looking for")])⟩]
  | .rejected err =>
      [⟨500, .json (.obj [("success", .bool false), ("err", err)])⟩]

/-- Handler of `DELETE /hubs/:id` (src/index.js lines 150-164): the list
of responses sent for a settled `db.remove(id)` promise. -/
def deleteHub : Settled → List Response
  | .resolved deleted =>
      if deleted.truthy then
        [⟨204, .empty⟩]
      else
        [⟨404, .json (.obj [("success", .bool false),
          ("message", .str "I cannot find the hub you are looking for")])⟩]
  | .rejected err =>
      [⟨500, .json (.obj [("success", .bool false), ("err", err)])⟩]

/-- HTTP methods used by the registered routes. -/
inductive Method where
  | get | post | put | delete
deriving Repr

/-- A matched route of the server, with the extracted `:id` path
parameter where the route template has one. -/
inductive Routed where
  | root : Routed
  | now : Routed
  | hubsIndex : Routed
  | hubById : String → Routed
  | hubsCreate : Routed
  | hubUpdate : String → Routed
  | hubDelete : String → Routed
deriving Repr

/-- Express route matching over the seven registered routes, on the
method and the URL path split into segments.  A `:id` template segment
captures the corresponding raw path segment as a string. -/
def route : Method → List String → Option Routed
  | .get, [] => some .root
  | .get, ["now"] => some .now
  | .get, ["hubs"] => some .hubsIndex
  | .get, ["hubs", id] => some (.hubById id)
  | .post, ["hubs"] => some .hubsCreate
  | .put, ["hubs", id] => some (.hubUpdate id)
  | .delete, ["hubs", id] => some (.hubDelete id)
  | _, _ => none

/-- The collaborator (database module) calls a handler can make. -/
inductive DbCall where
  | find : DbCall
  | findById : String → DbCall
  | add : Json → DbCall
  | update : String → Json → DbCall
  | remove : String → DbCall
deriving Repr

/-- The collaborator call issued by the handler of a matched route, given the
parsed request body.  The two non-hub routes call the database not at
all; each hub handler passes the extracted `:id` string and/or `req.body`
through unchanged (src/index.js lines 35, 58-60, 98-100, 124-127,
151-153). -/
def dbCall : Routed → Json → Option DbCall
  | .root, _ => none
  | .now, _ => none
  | .hubsIndex, _ => some .find
  | .hubById id, _ => some (.findById id)
  | .hubsCreate, body => some (.add body)
  | .hubUpdate id, body => some (.update id body)
  | .hubDelete id, _ => some (.remove id)

/-- Claim C1: for GET /hubs/:id, a truthy resolution h yields status 200
with body exactly h; a falsy resolution yields status 404 with a body of
success:false and the message ending in a period; a rejection with e
yields status 500 with a body of success:false and err bound to e. -/
theorem getHubById_spec :
    (∀ h : Json, h.truthy = true →
      getHubById (.resolved h) = [⟨200, .json h⟩]) ∧
    (∀ h : Json, h.truthy = false →
      getHubById (.resolved h) =
        [⟨404, .json (.obj [("success", .bool false),
          ("message", .str "I cannot find the hub you are looking for.")])⟩]) ∧
    (∀ e : Json, getHubById (.rejected e) =
      [⟨500, .json (.obj [("success", .bool false), ("err", e)])⟩]) :=
  ⟨fun _ ht => by simp [getHubById, ht],
   fun _ hf => by simp [getHubById, hf],
   fun _ => rfl⟩

/-- Witness for C1 at concrete inputs: a truthy hub object, the falsy
resolution `undefined`, and a concrete rejection error. -/
theorem getHubById_spec_witness :
    getHubById (.resolved (.obj [("id", .num 1)])) =
      [⟨200, .json (.obj [("id", .num 1)])⟩] ∧
    getHubById (.resolved .undef) =
      [⟨404, .json (.obj [("success", .bool false),
        ("message", .str "I cannot find the hub you are looking for.")])⟩] ∧
    getHubById (.rejected (.str "boom")) =
      [⟨500, .json (.obj [("success", .bool false), ("err", .str "boom")])⟩] :=
  ⟨getHubById_spec.1 (.obj [("id", .num 1)]) rfl,
   getHubById_spec.2.1 .undef rfl,
   getHubById_spec.2.2 (.str "boom")⟩

/-- Claim C2: for PUT /hubs/:id, a truthy resolution u yields status 200
with a body of success:true and updated bound to u; a falsy resolution
yields status 404 with the message carrying no trailing period; a
rejection with e yields status 500 with success:false and err bound
to e. -/
theorem putHub_spec :
    (∀ u : Json, u.truthy = true →
      putHub (.resolved u) =
        [⟨200, .json (.obj [("success", .bool true), ("updated", u)])⟩]) ∧
    (∀ u : Json, u.truthy = false →
      putHub (.resolved u) =
        [⟨404, .json (.obj [("success", .bool false),
          ("message", .str "I cannot find the hub you are looking for")])⟩]) ∧
    (∀ e : Json, putHub (.rejected e) =
      [⟨500, .json (.obj [("success", .bool false), ("err", e)])⟩]) :=
  ⟨fun _ ht => by simp [putHub, ht],
   fun _ hf => by simp [putHub, hf],
   fun _ => rfl⟩

/-- Witness for C2 at concrete inputs: a truthy updated record, the
falsy resolution `undefined`, and a concrete rejection error. -/
theorem putHub_spec_witness :
    putHub (.resolved (.obj [("name", .str "n")])) =
      [⟨200, .json (.obj [("success", .bool true),
        ("updated", .obj [("name", .str "n")])])⟩] ∧
    putHub (.resolved .undef) =
      [⟨404, .json (.obj [("success", .bool false),
        ("message", .str "I cannot find the hub you are looking for")])⟩] ∧
    putHub (.rejected (.str "oops")) =
      [⟨500, .json (.obj [("success", .bool false), ("err", .str "oops")])⟩] :=
  ⟨putHub_spec.1 (.obj [("name", .str "n")]) rfl,
   putHub_spec.2.1 .undef rfl,
   putHub_spec.2.2 (.str "oops")⟩

/-- Claim C3: for DELETE /hubs/:id, a truthy resolution yields status
204 with an empty body; a falsy resolution yields status 404 with
success:false and the not-found message; a rejection with e yields
status 500 with success:false and err bound to e. -/
theorem deleteHub_spec :
    (∀ d : Json, d.truthy = true →
      deleteHub (.resolved d) = [⟨204, .empty⟩]) ∧
    (∀ d : Json, d.truthy = false →
      deleteHub (.resolved d) =
        [⟨404, .json (.obj [("success", .bool false),
          ("message", .str "I cannot find the hub you are looking for")])⟩]) ∧
    (∀ e : Json, deleteHub (.rejected e) =
      [⟨500, .json (.obj [("success", .bool false), ("err", e)])⟩]) :=
  ⟨fun _ ht => by simp [deleteHub, ht],
   fun _ hf => by simp [deleteHub, hf],
   fun _ => rfl⟩

/-- Witness for C3 at concrete inputs: the truthy resolution `true`, the
falsy resolution `0`, and a concrete rejection error. -/
theorem deleteHub_spec_witness :
    deleteHub (.resolved (.bool true)) = [⟨204, .empty⟩] ∧
    deleteHub (.resolved (.num 0)) =
      [⟨404, .json (.obj [("success", .bool false),
        ("message", .str "I cannot find the hub you are looking for")])⟩] ∧
    deleteHub (.rejected (.str "down")) =
      [⟨500, .json (.obj [("success", .bool false), ("err", .str "down")])⟩] :=
  ⟨deleteHub_spec.1 (.bool true) rfl,
   deleteHub_spec.2.1 (.num 0) rfl,
   deleteHub_spec.2.2 (.str "down")⟩

/-- Counterexample to C4 as stated: at a concrete created hub, the 201
body of POST /hubs is not an object whose flag field is spelled
success, because src/index.js line 102 spells it sucess. -/
theorem postHubs_spelling_cex :
    postHubs (.resolved (.obj [("name", .str "x")])) ≠
      [⟨201, .json (.obj [("success", .bool true),
        ("hub", .obj [("name", .str "x")])])⟩] := by
  simp [postHubs]

/-- Claim C4 amended: for POST /hubs, a resolution with h yields status
201 with a body whose flag field, spelled sucess, is true and whose hub
field is h; a rejection with e yields status 500 with a body whose flag
field, spelled sucess, is false and whose err field is e. -/
theorem postHubs_spec :
    (∀ h : Json, postHubs (.resolved h) =
      [⟨201, .json (.obj [("sucess", .bool true), ("hub", h)])⟩]) ∧
    (∀ e : Json, postHubs (.rejected e) =
      [⟨500, .json (.obj [("sucess", .bool false), ("err", e)])⟩]) :=
  ⟨fun _ => rfl, fun _ => rfl⟩

/-- Counterexample to C5 as stated: at a concrete rejection, the 500
body of GET /hubs is not an object whose flag field is spelled success,
because src/index.js line 40 spells it sucess. -/
theorem getHubs_spelling_cex :
    getHubs (.rejected (.str "db down")) ≠
      [⟨500, .json (.obj [("success", .bool false),
        ("err", .str "db down")])⟩] := by
  simp [getHubs]

/-- Claim C5 amended: for GET /hubs, a resolution with hubs yields
status 200 with body exactly hubs, no envelope; a rejection with e
yields status 500 with a body whose flag field, spelled sucess, is false
and whose err field is e. -/
theorem getHubs_spec :
    (∀ hubs : Json, getHubs (.resolved hubs) = [⟨200, .json hubs⟩]) ∧
    (∀ e : Json, getHubs (.rejected e) =
      [⟨500, .json (.obj [("sucess", .bool false), ("err", e)])⟩]) :=
  ⟨fun _ => rfl, fun _ => rfl⟩

/-- Claim C6: on every one of the five hub routes, a rejection with e
yields status 500 with a body binding err to e and the flag to false,
spelled sucess on GET /hubs and POST /hubs and success on the three
id-addressed routes, each route using one spelling. -/
theorem reject_yields_500 (e : Json) :
    getHubs (.rejected e) =
      [⟨500, .json (.obj [("sucess", .bool false), ("err", e)])⟩] ∧
    getHubById (.rejected e) =
      [⟨500, .json (.obj [("success", .bool false), ("err", e)])⟩] ∧
    postHubs (.rejected e) =
      [⟨500, .json (.obj [("sucess", .bool false), ("err", e)])⟩] ∧
    putHub (.rejected e) =
      [⟨500, .json (.obj [("success", .bool false), ("err", e)])⟩] ∧
    deleteHub (.rejected e) =
      [⟨500, .json (.obj [("success", .bool false), ("err", e)])⟩] :=
  ⟨rfl, rfl, rfl, rfl, rfl⟩

/-- Claim C7: on every settled outcome of the collaborator call, each of
the five hub handlers sends exactly one response, on the truthy, the
falsy and the rejection branch alike. -/
theorem handlers_single_response (o : Settled) :
    (getHubs o).length = 1 ∧ (getHubById o).length = 1 ∧
    (postHubs o).length = 1 ∧ (putHub o).length = 1 ∧
    (deleteHub o).length = 1 := by
  obtain v | e := o
  · refine ⟨rfl, ?_, rfl, ?_, ?_⟩ <;>
      simp only [getHubById, putHub, deleteHub] <;> split <;> rfl
  · exact ⟨rfl, rfl, rfl, rfl, rfl⟩

/-- Claim C9: for GET /hubs, every resolution is answered with status
200 and the resolved value as the body, truthy or not; the collection
route has no not-found branch. -/
theorem getHubs_no_notfound (hubs : Json) :
    getHubs (.resolved hubs) = [⟨200, .json hubs⟩] :=
  rfl

/-- Claim C10: for each id-addressed route, the raw :id path segment
captured by the router is passed to the collaborator verbatim, with no
parsing, coercion or validation. -/
theorem id_forwarded_verbatim (s : String) (b : Json) :
    (route .get ["hubs", s] = some (.hubById s) ∧
      dbCall (.hubById s) b = some (.findById s)) ∧
    (route .put ["hubs", s] = some (.hubUpdate s) ∧
      dbCall (.hubUpdate s) b = some (.update s b)) ∧
    (route .delete ["hubs", s] = some (.hubDelete s) ∧
      dbCall (.hubDelete s) b = some (.remove s)) :=
  ⟨⟨rfl, rfl⟩, ⟨rfl, rfl⟩, ⟨rfl, rfl⟩⟩

end WebApi
